import Mathlib

/-!
# GpioValidator

A shallow embedding of `GpioValidator::validate`
(`gpio_validator/gpio_validator.cpp`) together with the properties of it that
the specification states.

The function reads three things it does not define: the chip model returned by
`esp_chip_info`, and the target's `SOC_GPIO_PIN_COUNT`, `GPIO_IS_VALID_GPIO`
and `GPIO_IS_VALID_OUTPUT_GPIO`.  They are explicit arguments here.  Every
`ESP_LOGE` / `ESP_LOGW` call is recorded, in order, in the list returned next
to the status.
-/

namespace GpioValidator

/-! ## Data model -/

/-- The `enum class Mode` of `gpio_validator.hpp`. -/
inductive Mode where
  | INPUT
  | OUTPUT
  deriving DecidableEq, Repr

/-- The chip model read from `esp_chip_info`.  The `switch` of `validate` names
three enumerators; `other n` is any further value of the enumeration, `n`
being the number the `default` branch prints. -/
inductive esp_chip_model_t where
  | CHIP_ESP32
  | CHIP_ESP32S3
  | CHIP_ESP32C3
  | other (model : Int)
  deriving DecidableEq, Repr

/-- The part of `esp_chip_info_t` that `validate` reads. -/
structure esp_chip_info_t where
  model : esp_chip_model_t
  deriving DecidableEq, Repr

/-- The target-dependent macros used by `validate` (from `soc/soc_caps.h` and
`driver/gpio.h`, which are not part of the component). -/
structure SocCaps where
  SOC_GPIO_PIN_COUNT : Int
  GPIO_IS_VALID_GPIO : Int → Bool
  GPIO_IS_VALID_OUTPUT_GPIO : Int → Bool

/-- The type `esp_err_t` is a plain `int`. -/
abbrev esp_err_t := Int

/-- Value of `ESP_OK` in `esp_err.h`. -/
def ESP_OK : esp_err_t := 0

/-- Value of `ESP_ERR_INVALID_ARG` in `esp_err.h` (`0x102`). -/
def ESP_ERR_INVALID_ARG : esp_err_t := 258

/-- Severity of a log call: `ESP_LOGE` or `ESP_LOGW`. -/
inductive Level where
  | E
  | W
  deriving DecidableEq, Repr

/-- The format strings that `validate` logs, one constructor per distinct
string. -/
inductive Msg where
  /-- "GPIO %d is out of range" -/
  | out_of_range
  /-- "GPIO %d is not a valid GPIO for this chip" -/
  | not_valid_gpio
  /-- "GPIO %d is NOT a valid OUTPUT GPIO" -/
  | not_valid_output
  /-- "GPIO %d is reserved for SPI Flash/PSRAM on ESP32 - PROHIBITED" -/
  | reserved_flash_psram_esp32
  /-- "GPIO %d is reserved for SPI Flash on ESP32-S3 - PROHIBITED" -/
  | reserved_spi_flash_esp32s3
  /-- "GPIO %d is reserved for Octal Flash on ESP32-S3 - PROHIBITED" -/
  | reserved_octal_flash_esp32s3
  /-- "GPIO %d is reserved for SPI Flash on ESP32-C3 - PROHIBITED" -/
  | reserved_spi_flash_esp32c3
  /-- "GPIO %d is used for UART0 (TX/RX) - use with caution" -/
  | uart0
  /-- "GPIO %d is used for JTAG - use with caution" -/
  | jtag
  /-- "GPIO %d is used for USB-JTAG - use with caution" -/
  | usb_jtag
  /-- "GPIO %d is a strapping pin - may affect boot mode" -/
  | strapping
  /-- "GPIO %d has no pullup/pulldown support" -/
  | no_pull
  /-- "Chip model %d not explicitly handled, performing basic validation" -/
  | chip_not_handled
  deriving DecidableEq, Repr

/-- One log call: its severity, its format string and its `%d` argument. -/
structure LogEntry where
  level : Level
  msg : Msg
  arg : Int
  deriving DecidableEq, Repr

/-- The call `ESP_LOGE(TAG, msg, arg)`. -/
def ESP_LOGE (msg : Msg) (arg : Int) : LogEntry := ⟨Level.E, msg, arg⟩

/-- The call `ESP_LOGW(TAG, msg, arg)`. -/
def ESP_LOGW (msg : Msg) (arg : Int) : LogEntry := ⟨Level.W, msg, arg⟩

/-- What a call of `validate` produces: the returned status and the log calls
made, oldest first. -/
abbrev Outcome := esp_err_t × List LogEntry

/-! ## The validator -/

/-- The statement `if (c) { ESP_LOGW(TAG, msg, g); }` acting on the log written
so far. -/
def warnIf (c : Bool) (msg : Msg) (g : Int) (log : List LogEntry) : List LogEntry :=
  if c then log ++ [ESP_LOGW msg g] else log

/-- The function `GpioValidator::validate` of `gpio_validator.cpp`. -/
def validate (chip_info : esp_chip_info_t) (soc : SocCaps) (gpio : Int) (mode : Mode) :
    Outcome :=
  -- 1. Basic validation
  if gpio < 0 ∨ gpio ≥ soc.SOC_GPIO_PIN_COUNT then
    (ESP_ERR_INVALID_ARG, [ESP_LOGE Msg.out_of_range gpio])
  else if ¬ (soc.GPIO_IS_VALID_GPIO gpio = true) then
    (ESP_ERR_INVALID_ARG, [ESP_LOGE Msg.not_valid_gpio gpio])
  -- 2. Mode validation
  else if mode = Mode.OUTPUT ∧ ¬ (soc.GPIO_IS_VALID_OUTPUT_GPIO gpio = true) then
    (ESP_ERR_INVALID_ARG, [ESP_LOGE Msg.not_valid_output gpio])
  else
    -- 3. Chip-specific logic
    let g : Int := gpio
    match chip_info.model with
    | esp_chip_model_t.CHIP_ESP32 =>
      if (g ≥ 6 ∧ g ≤ 11) ∨ g = 16 ∨ g = 17 then
        (ESP_ERR_INVALID_ARG, [ESP_LOGE Msg.reserved_flash_psram_esp32 g])
      else
        let log : List LogEntry := []
        let log := warnIf (decide (g = 1 ∨ g = 3)) Msg.uart0 g log
        let log := warnIf (decide (g ≥ 12 ∧ g ≤ 15)) Msg.jtag g log
        let log := warnIf (decide (g = 0 ∨ g = 2 ∨ g = 5 ∨ g = 12 ∨ g = 15)) Msg.strapping g log
        if g ≥ 34 ∧ g ≤ 39 ∧ mode = Mode.INPUT then
          (ESP_OK, log ++ [ESP_LOGW Msg.no_pull g])
        else
          (ESP_OK, log)
    | esp_chip_model_t.CHIP_ESP32S3 =>
      if g ≥ 26 ∧ g ≤ 32 then
        (ESP_ERR_INVALID_ARG, [ESP_LOGE Msg.reserved_spi_flash_esp32s3 g])
      else if g ≥ 33 ∧ g ≤ 37 then
        (ESP_ERR_INVALID_ARG, [ESP_LOGE Msg.reserved_octal_flash_esp32s3 g])
      else
        let log : List LogEntry := []
        let log := warnIf (decide (g = 19 ∨ g = 20)) Msg.usb_jtag g log
        let log := warnIf (decide (g = 43 ∨ g = 44)) Msg.uart0 g log
        let log := warnIf (decide (g = 0 ∨ g = 3 ∨ g = 45 ∨ g = 46)) Msg.strapping g log
        (ESP_OK, log)
    | esp_chip_model_t.CHIP_ESP32C3 =>
      if g ≥ 12 ∧ g ≤ 17 then
        (ESP_ERR_INVALID_ARG, [ESP_LOGE Msg.reserved_spi_flash_esp32c3 g])
      else
        let log : List LogEntry := []
        let log := warnIf (decide (g = 18 ∨ g = 19)) Msg.usb_jtag g log
        let log := warnIf (decide (g = 2 ∨ g = 8 ∨ g = 9)) Msg.strapping g log
        (ESP_OK, log)
    | esp_chip_model_t.other model =>
      (ESP_OK, [ESP_LOGW Msg.chip_not_handled model])

/-! ## Tables named in the comments of `validate` -/

/-- The pins the comments of `validate` mark "Prohibited" for each chip model:
ESP32 6-11, 16, 17; ESP32-S3 26-32 and 33-37; ESP32-C3 12-17; none for a model
the `switch` does not name. -/
def reservedPins : esp_chip_model_t → List Int
  | esp_chip_model_t.CHIP_ESP32 => [6, 7, 8, 9, 10, 11, 16, 17]
  | esp_chip_model_t.CHIP_ESP32S3 => [26, 27, 28, 29, 30, 31, 32, 33, 34, 35, 36, 37]
  | esp_chip_model_t.CHIP_ESP32C3 => [12, 13, 14, 15, 16, 17]
  | esp_chip_model_t.other _ => []

/-- A chip model that the `switch` of `validate` names. -/
def recognised : esp_chip_model_t → Bool
  | esp_chip_model_t.other _ => false
  | _ => true

/-- Example target: the figures of the ESP32 (40 pins; 20, 24 and 28..31 are
not bonded out; 34..39 are input only). -/
def esp32Soc : SocCaps where
  SOC_GPIO_PIN_COUNT := 40
  GPIO_IS_VALID_GPIO := fun g =>
    decide (0 ≤ g ∧ g < 40 ∧ g ≠ 20 ∧ g ≠ 24 ∧ ¬ (28 ≤ g ∧ g ≤ 31))
  GPIO_IS_VALID_OUTPUT_GPIO := fun g =>
    decide (0 ≤ g ∧ g < 34 ∧ g ≠ 20 ∧ g ≠ 24 ∧ ¬ (28 ≤ g ∧ g ≤ 31))

/-- Example target: the figures of the ESP32-S2, a chip the `switch` does not
name (47 pins; 22..25 do not exist; 46 is input only). -/
def esp32s2Soc : SocCaps where
  SOC_GPIO_PIN_COUNT := 47
  GPIO_IS_VALID_GPIO := fun g => decide (0 ≤ g ∧ g < 47 ∧ ¬ (22 ≤ g ∧ g ≤ 25))
  GPIO_IS_VALID_OUTPUT_GPIO := fun g => decide (0 ≤ g ∧ g < 46 ∧ ¬ (22 ≤ g ∧ g ≤ 25))

/-- The source's reserved-pin conditions, as one predicate of the chip model. -/
def reservedCond : esp_chip_model_t → Int → Prop
  | esp_chip_model_t.CHIP_ESP32, g => (g ≥ 6 ∧ g ≤ 11) ∨ g = 16 ∨ g = 17
  | esp_chip_model_t.CHIP_ESP32S3, g => (g ≥ 26 ∧ g ≤ 32) ∨ (g ≥ 33 ∧ g ≤ 37)
  | esp_chip_model_t.CHIP_ESP32C3, g => g ≥ 12 ∧ g ≤ 17
  | esp_chip_model_t.other _, _ => False

instance (model : esp_chip_model_t) (g : Int) : Decidable (reservedCond model g) := by
  cases model <;> unfold reservedCond <;> infer_instance

/-- The pins the comments of `validate` mark "Warning", by chip model and by the
message logged for them: ESP32 UART0 1, 3, JTAG 12-15, strapping 0, 2, 5, 12,
15; ESP32-S3 USB-JTAG 19, 20, UART0 43, 44, strapping 0, 3, 45, 46; ESP32-C3
USB-JTAG 18, 19, strapping 2, 8, 9. -/
def cautionPins : esp_chip_model_t → Msg → List Int
  | esp_chip_model_t.CHIP_ESP32, Msg.uart0 => [1, 3]
  | esp_chip_model_t.CHIP_ESP32, Msg.jtag => [12, 13, 14, 15]
  | esp_chip_model_t.CHIP_ESP32, Msg.strapping => [0, 2, 5, 12, 15]
  | esp_chip_model_t.CHIP_ESP32S3, Msg.usb_jtag => [19, 20]
  | esp_chip_model_t.CHIP_ESP32S3, Msg.uart0 => [43, 44]
  | esp_chip_model_t.CHIP_ESP32S3, Msg.strapping => [0, 3, 45, 46]
  | esp_chip_model_t.CHIP_ESP32C3, Msg.usb_jtag => [18, 19]
  | esp_chip_model_t.CHIP_ESP32C3, Msg.strapping => [2, 8, 9]
  | _, _ => []

/-- The caution categories of a chip model, in the order in which `validate`
tests them. -/
def cautionCategories : esp_chip_model_t → List Msg
  | esp_chip_model_t.CHIP_ESP32 => [Msg.uart0, Msg.jtag, Msg.strapping]
  | esp_chip_model_t.CHIP_ESP32S3 => [Msg.usb_jtag, Msg.uart0, Msg.strapping]
  | esp_chip_model_t.CHIP_ESP32C3 => [Msg.usb_jtag, Msg.strapping]
  | esp_chip_model_t.other _ => []

/-- The messages that flag a special function of the pin ("use with caution",
"may affect boot mode"): UART0, JTAG, USB-JTAG and strapping. -/
def Msg.isCaution : Msg → Bool
  | Msg.uart0 => true
  | Msg.jtag => true
  | Msg.usb_jtag => true
  | Msg.strapping => true
  | _ => false

/-- The caution notices among the log calls of a run. -/
def cautionNotices (log : List LogEntry) : List LogEntry :=
  log.filter (fun e => e.msg.isCaution)

/-- The caution notices a pin is due on a chip model: one warning per category
whose table holds the pin. -/
def expectedCautions (model : esp_chip_model_t) (gpio : Int) : List LogEntry :=
  ((cautionCategories model).filter (fun c => decide (gpio ∈ cautionPins model c))).map
    (fun c => ESP_LOGW c gpio)

/-- The four rejection reasons of the specification. -/
inductive Reason where
  | OutOfRange
  | NotAPhysicalPin
  | IncompatibleMode
  | ReservedForBus
  deriving DecidableEq, Repr

/-- The rejection reason an error message stands for; warnings stand for
none. -/
def Msg.reason : Msg → Option Reason
  | Msg.out_of_range => some Reason.OutOfRange
  | Msg.not_valid_gpio => some Reason.NotAPhysicalPin
  | Msg.not_valid_output => some Reason.IncompatibleMode
  | Msg.reserved_flash_psram_esp32 => some Reason.ReservedForBus
  | Msg.reserved_spi_flash_esp32s3 => some Reason.ReservedForBus
  | Msg.reserved_octal_flash_esp32s3 => some Reason.ReservedForBus
  | Msg.reserved_spi_flash_esp32c3 => some Reason.ReservedForBus
  | _ => none

/-- The specification's ordered checks (range, existence, mode capability, bus
reservation): the reason of the first one that fails, if any does. -/
def firstFailingCheck (model : esp_chip_model_t) (soc : SocCaps) (gpio : Int)
    (mode : Mode) : Option Reason :=
  if gpio < 0 ∨ gpio ≥ soc.SOC_GPIO_PIN_COUNT then some Reason.OutOfRange
  else if soc.GPIO_IS_VALID_GPIO gpio = false then some Reason.NotAPhysicalPin
  else if mode = Mode.OUTPUT ∧ soc.GPIO_IS_VALID_OUTPUT_GPIO gpio = false then
    some Reason.IncompatibleMode
  else if gpio ∈ reservedPins model then some Reason.ReservedForBus
  else none

/-- Example target: the figures of the ESP32-S3 (49 pins; 22..25 do not exist;
every pin that exists can drive output). -/
def esp32s3Soc : SocCaps where
  SOC_GPIO_PIN_COUNT := 49
  GPIO_IS_VALID_GPIO := fun g => decide (0 ≤ g ∧ g < 49 ∧ ¬ (22 ≤ g ∧ g ≤ 25))
  GPIO_IS_VALID_OUTPUT_GPIO := fun g => decide (0 ≤ g ∧ g < 49 ∧ ¬ (22 ≤ g ∧ g ≤ 25))

/-! ## The control flow of `validate`, condition by condition -/

/-- The `if` conditions of `validate`, one constructor per `if` statement, in
the order of the source text. -/
inductive Check where
  /-- `gpio < 0 || gpio >= SOC_GPIO_PIN_COUNT` -/
  | range
  /-- `!GPIO_IS_VALID_GPIO(gpio)` -/
  | valid_gpio
  /-- `mode == Mode::OUTPUT && !GPIO_IS_VALID_OUTPUT_GPIO(gpio)` -/
  | valid_output
  /-- ESP32: `(g >= 6 && g <= 11) || g == 16 || g == 17` -/
  | esp32_flash
  /-- ESP32: `g == 1 || g == 3` -/
  | esp32_uart0
  /-- ESP32: `g >= 12 && g <= 15` -/
  | esp32_jtag
  /-- ESP32: `g == 0 || g == 2 || g == 5 || g == 12 || g == 15` -/
  | esp32_strapping
  /-- ESP32: `g >= 34 && g <= 39 && mode == Mode::INPUT` -/
  | esp32_no_pull
  /-- ESP32-S3: `g >= 26 && g <= 32` -/
  | esp32s3_spi_flash
  /-- ESP32-S3: `g >= 33 && g <= 37` -/
  | esp32s3_octal_flash
  /-- ESP32-S3: `g == 19 || g == 20` -/
  | esp32s3_usb_jtag
  /-- ESP32-S3: `g == 43 || g == 44` -/
  | esp32s3_uart0
  /-- ESP32-S3: `g == 0 || g == 3 || g == 45 || g == 46` -/
  | esp32s3_strapping
  /-- ESP32-C3: `g >= 12 && g <= 17` -/
  | esp32c3_flash
  /-- ESP32-C3: `g == 18 || g == 19` -/
  | esp32c3_usb_jtag
  /-- ESP32-C3: `g == 2 || g == 8 || g == 9` -/
  | esp32c3_strapping
  deriving DecidableEq, Repr

/-- One step of a run of `validate`: an `if` condition is evaluated, or a log
call is made. -/
inductive Event where
  | cond (c : Check)
  | logged (e : LogEntry)
  deriving DecidableEq, Repr

/-- The statement `if (c) { ESP_LOGW(TAG, msg, g); }` acting on the steps taken
so far: the condition is evaluated, and the warning follows when it holds. -/
def stepWarnIf (c : Bool) (chk : Check) (msg : Msg) (g : Int) (ev : List Event) :
    List Event :=
  if c then ev ++ [Event.cond chk, Event.logged (ESP_LOGW msg g)]
  else ev ++ [Event.cond chk]

/-- The function `GpioValidator::validate` once more, this time returning with
the status every step taken: the conditions evaluated and the log calls made,
in the order in which the control flow reaches them. -/
def validateSteps (chip_info : esp_chip_info_t) (soc : SocCaps) (gpio : Int)
    (mode : Mode) : esp_err_t × List Event :=
  if gpio < 0 ∨ gpio ≥ soc.SOC_GPIO_PIN_COUNT then
    (ESP_ERR_INVALID_ARG,
      [Event.cond Check.range, Event.logged (ESP_LOGE Msg.out_of_range gpio)])
  else if ¬ (soc.GPIO_IS_VALID_GPIO gpio = true) then
    (ESP_ERR_INVALID_ARG,
      [Event.cond Check.range, Event.cond Check.valid_gpio,
        Event.logged (ESP_LOGE Msg.not_valid_gpio gpio)])
  else if mode = Mode.OUTPUT ∧ ¬ (soc.GPIO_IS_VALID_OUTPUT_GPIO gpio = true) then
    (ESP_ERR_INVALID_ARG,
      [Event.cond Check.range, Event.cond Check.valid_gpio, Event.cond Check.valid_output,
        Event.logged (ESP_LOGE Msg.not_valid_output gpio)])
  else
    let g : Int := gpio
    let ev : List Event :=
      [Event.cond Check.range, Event.cond Check.valid_gpio, Event.cond Check.valid_output]
    match chip_info.model with
    | esp_chip_model_t.CHIP_ESP32 =>
      if (g ≥ 6 ∧ g ≤ 11) ∨ g = 16 ∨ g = 17 then
        (ESP_ERR_INVALID_ARG,
          ev ++ [Event.cond Check.esp32_flash,
            Event.logged (ESP_LOGE Msg.reserved_flash_psram_esp32 g)])
      else
        let ev := ev ++ [Event.cond Check.esp32_flash]
        let ev := stepWarnIf (decide (g = 1 ∨ g = 3)) Check.esp32_uart0 Msg.uart0 g ev
        let ev := stepWarnIf (decide (g ≥ 12 ∧ g ≤ 15)) Check.esp32_jtag Msg.jtag g ev
        let ev := stepWarnIf (decide (g = 0 ∨ g = 2 ∨ g = 5 ∨ g = 12 ∨ g = 15))
          Check.esp32_strapping Msg.strapping g ev
        if g ≥ 34 ∧ g ≤ 39 ∧ mode = Mode.INPUT then
          (ESP_OK, ev ++ [Event.cond Check.esp32_no_pull,
            Event.logged (ESP_LOGW Msg.no_pull g)])
        else
          (ESP_OK, ev ++ [Event.cond Check.esp32_no_pull])
    | esp_chip_model_t.CHIP_ESP32S3 =>
      if g ≥ 26 ∧ g ≤ 32 then
        (ESP_ERR_INVALID_ARG,
          ev ++ [Event.cond Check.esp32s3_spi_flash,
            Event.logged (ESP_LOGE Msg.reserved_spi_flash_esp32s3 g)])
      else if g ≥ 33 ∧ g ≤ 37 then
        (ESP_ERR_INVALID_ARG,
          ev ++ [Event.cond Check.esp32s3_spi_flash, Event.cond Check.esp32s3_octal_flash,
            Event.logged (ESP_LOGE Msg.reserved_octal_flash_esp32s3 g)])
      else
        let ev := ev ++ [Event.cond Check.esp32s3_spi_flash,
          Event.cond Check.esp32s3_octal_flash]
        let ev := stepWarnIf (decide (g = 19 ∨ g = 20)) Check.esp32s3_usb_jtag
          Msg.usb_jtag g ev
        let ev := stepWarnIf (decide (g = 43 ∨ g = 44)) Check.esp32s3_uart0 Msg.uart0 g ev
        let ev := stepWarnIf (decide (g = 0 ∨ g = 3 ∨ g = 45 ∨ g = 46))
          Check.esp32s3_strapping Msg.strapping g ev
        (ESP_OK, ev)
    | esp_chip_model_t.CHIP_ESP32C3 =>
      if g ≥ 12 ∧ g ≤ 17 then
        (ESP_ERR_INVALID_ARG,
          ev ++ [Event.cond Check.esp32c3_flash,
            Event.logged (ESP_LOGE Msg.reserved_spi_flash_esp32c3 g)])
      else
        let ev := ev ++ [Event.cond Check.esp32c3_flash]
        let ev := stepWarnIf (decide (g = 18 ∨ g = 19)) Check.esp32c3_usb_jtag
          Msg.usb_jtag g ev
        let ev := stepWarnIf (decide (g = 2 ∨ g = 8 ∨ g = 9)) Check.esp32c3_strapping
          Msg.strapping g ev
        (ESP_OK, ev)
    | esp_chip_model_t.other model =>
      (ESP_OK, ev ++ [Event.logged (ESP_LOGW Msg.chip_not_handled model)])

/-- The log calls among the steps of a run. -/
def loggedOf : List Event → List LogEntry
  | [] => []
  | Event.cond _ :: ev => loggedOf ev
  | Event.logged e :: ev => e :: loggedOf ev

/-- The caution conditions of the ESP32 branch: UART0, JTAG, strapping. -/
def Check.isEsp32Caution : Check → Bool
  | Check.esp32_uart0 => true
  | Check.esp32_jtag => true
  | Check.esp32_strapping => true
  | _ => false

/-! ## Two variants of the ESP32 branch, for comparison with `validate` -/

/-- Variant of `validate` in which the no-pull check of the ESP32 branch only
logs its warning and then falls through to the common `return ESP_OK`; the
other branches are those of `validate`. -/
def validateFallThrough (chip_info : esp_chip_info_t) (soc : SocCaps) (gpio : Int)
    (mode : Mode) : Outcome :=
  if gpio < 0 ∨ gpio ≥ soc.SOC_GPIO_PIN_COUNT then
    (ESP_ERR_INVALID_ARG, [ESP_LOGE Msg.out_of_range gpio])
  else if ¬ (soc.GPIO_IS_VALID_GPIO gpio = true) then
    (ESP_ERR_INVALID_ARG, [ESP_LOGE Msg.not_valid_gpio gpio])
  else if mode = Mode.OUTPUT ∧ ¬ (soc.GPIO_IS_VALID_OUTPUT_GPIO gpio = true) then
    (ESP_ERR_INVALID_ARG, [ESP_LOGE Msg.not_valid_output gpio])
  else
    let g : Int := gpio
    match chip_info.model with
    | esp_chip_model_t.CHIP_ESP32 =>
      if (g ≥ 6 ∧ g ≤ 11) ∨ g = 16 ∨ g = 17 then
        (ESP_ERR_INVALID_ARG, [ESP_LOGE Msg.reserved_flash_psram_esp32 g])
      else
        let log : List LogEntry := []
        let log := warnIf (decide (g = 1 ∨ g = 3)) Msg.uart0 g log
        let log := warnIf (decide (g ≥ 12 ∧ g ≤ 15)) Msg.jtag g log
        let log := warnIf (decide (g = 0 ∨ g = 2 ∨ g = 5 ∨ g = 12 ∨ g = 15)) Msg.strapping g log
        let log := warnIf (decide (g ≥ 34 ∧ g ≤ 39 ∧ mode = Mode.INPUT)) Msg.no_pull g log
        (ESP_OK, log)
    | _ => validate chip_info soc gpio mode

/-- Variant of `validate` in which the no-pull check of the ESP32 branch, with
its early return, stands before the UART0, JTAG and strapping checks; the other
branches are those of `validate`. -/
def validateNoPullFirst (chip_info : esp_chip_info_t) (soc : SocCaps) (gpio : Int)
    (mode : Mode) : Outcome :=
  if gpio < 0 ∨ gpio ≥ soc.SOC_GPIO_PIN_COUNT then
    (ESP_ERR_INVALID_ARG, [ESP_LOGE Msg.out_of_range gpio])
  else if ¬ (soc.GPIO_IS_VALID_GPIO gpio = true) then
    (ESP_ERR_INVALID_ARG, [ESP_LOGE Msg.not_valid_gpio gpio])
  else if mode = Mode.OUTPUT ∧ ¬ (soc.GPIO_IS_VALID_OUTPUT_GPIO gpio = true) then
    (ESP_ERR_INVALID_ARG, [ESP_LOGE Msg.not_valid_output gpio])
  else
    let g : Int := gpio
    match chip_info.model with
    | esp_chip_model_t.CHIP_ESP32 =>
      if (g ≥ 6 ∧ g ≤ 11) ∨ g = 16 ∨ g = 17 then
        (ESP_ERR_INVALID_ARG, [ESP_LOGE Msg.reserved_flash_psram_esp32 g])
      else if g ≥ 34 ∧ g ≤ 39 ∧ mode = Mode.INPUT then
        (ESP_OK, [ESP_LOGW Msg.no_pull g])
      else
        let log : List LogEntry := []
        let log := warnIf (decide (g = 1 ∨ g = 3)) Msg.uart0 g log
        let log := warnIf (decide (g ≥ 12 ∧ g ≤ 15)) Msg.jtag g log
        let log := warnIf (decide (g = 0 ∨ g = 2 ∨ g = 5 ∨ g = 12 ∨ g = 15)) Msg.strapping g log
        (ESP_OK, log)
    | _ => validate chip_info soc gpio mode

/-- The error notices (`ESP_LOGE`) among the log calls of a run. -/
def errorsOf (log : List LogEntry) : List LogEntry :=
  log.filter (fun e => decide (e.level = Level.E))

/-- The warning notices (`ESP_LOGW`) among the log calls of a run. -/
def warningsOf (log : List LogEntry) : List LogEntry :=
  log.filter (fun e => decide (e.level = Level.W))

/-! ## Outcome of each check, one lemma per return statement -/

theorem mem_reservedPins_iff (model : esp_chip_model_t) (g : Int) :
    g ∈ reservedPins model ↔ reservedCond model g := by
  cases model <;>
    simp only [reservedPins, reservedCond, List.mem_cons, List.mem_singleton,
      List.not_mem_nil, or_false] <;>
    omega

theorem validate_out_of_range (chip_info : esp_chip_info_t) (soc : SocCaps) (gpio : Int)
    (mode : Mode) (h : gpio < 0 ∨ gpio ≥ soc.SOC_GPIO_PIN_COUNT) :
    validate chip_info soc gpio mode
      = (ESP_ERR_INVALID_ARG, [ESP_LOGE Msg.out_of_range gpio]) := by
  simp only [validate, if_pos h]

theorem validate_not_valid_gpio (chip_info : esp_chip_info_t) (soc : SocCaps) (gpio : Int)
    (mode : Mode) (h1 : ¬ (gpio < 0 ∨ gpio ≥ soc.SOC_GPIO_PIN_COUNT))
    (h2 : ¬ (soc.GPIO_IS_VALID_GPIO gpio = true)) :
    validate chip_info soc gpio mode
      = (ESP_ERR_INVALID_ARG, [ESP_LOGE Msg.not_valid_gpio gpio]) := by
  simp only [validate, if_neg h1, if_pos h2]

theorem validate_not_valid_output (chip_info : esp_chip_info_t) (soc : SocCaps) (gpio : Int)
    (mode : Mode) (h1 : ¬ (gpio < 0 ∨ gpio ≥ soc.SOC_GPIO_PIN_COUNT))
    (h2 : soc.GPIO_IS_VALID_GPIO gpio = true)
    (h3 : mode = Mode.OUTPUT ∧ ¬ (soc.GPIO_IS_VALID_OUTPUT_GPIO gpio = true)) :
    validate chip_info soc gpio mode
      = (ESP_ERR_INVALID_ARG, [ESP_LOGE Msg.not_valid_output gpio]) := by
  simp only [validate, if_neg h1, not_not.mpr h2, if_false, if_pos h3]

/-- The status alone, as the chain of the four rejecting checks. -/
theorem validate_status (chip_info : esp_chip_info_t) (soc : SocCaps) (gpio : Int)
    (mode : Mode) :
    (validate chip_info soc gpio mode).1 =
      if gpio < 0 ∨ gpio ≥ soc.SOC_GPIO_PIN_COUNT then ESP_ERR_INVALID_ARG
      else if ¬ (soc.GPIO_IS_VALID_GPIO gpio = true) then ESP_ERR_INVALID_ARG
      else if mode = Mode.OUTPUT ∧ ¬ (soc.GPIO_IS_VALID_OUTPUT_GPIO gpio = true) then
        ESP_ERR_INVALID_ARG
      else if reservedCond chip_info.model gpio then ESP_ERR_INVALID_ARG
      else ESP_OK := by
  obtain ⟨model⟩ := chip_info
  cases model <;> simp only [validate, reservedCond] <;> split_ifs <;>
    first | rfl | omega | contradiction

theorem ESP_ERR_INVALID_ARG_ne_ESP_OK : ESP_ERR_INVALID_ARG ≠ ESP_OK := by decide

/-! ## The warnings of each branch are the caution notices the tables call for -/

theorem esp32_warnings_eq (g : Int) :
    warnIf (decide (g = 0 ∨ g = 2 ∨ g = 5 ∨ g = 12 ∨ g = 15)) Msg.strapping g
      (warnIf (decide (g ≥ 12 ∧ g ≤ 15)) Msg.jtag g
        (warnIf (decide (g = 1 ∨ g = 3)) Msg.uart0 g []))
      = expectedCautions esp_chip_model_t.CHIP_ESP32 g := by
  have hj : (g = 12 ∨ g = 13 ∨ g = 14 ∨ g = 15) ↔ (g ≥ 12 ∧ g ≤ 15) := by omega
  simp only [expectedCautions, cautionCategories, cautionPins, warnIf, List.filter,
    List.mem_cons, List.mem_singleton, List.not_mem_nil, or_false, hj]
  by_cases h1 : g = 1 ∨ g = 3 <;> by_cases h2 : g ≥ 12 ∧ g ≤ 15 <;>
    by_cases h3 : g = 0 ∨ g = 2 ∨ g = 5 ∨ g = 12 ∨ g = 15 <;>
    simp [h1, h2, h3]

theorem esp32s3_warnings_eq (g : Int) :
    warnIf (decide (g = 0 ∨ g = 3 ∨ g = 45 ∨ g = 46)) Msg.strapping g
      (warnIf (decide (g = 43 ∨ g = 44)) Msg.uart0 g
        (warnIf (decide (g = 19 ∨ g = 20)) Msg.usb_jtag g []))
      = expectedCautions esp_chip_model_t.CHIP_ESP32S3 g := by
  simp only [expectedCautions, cautionCategories, cautionPins, warnIf, List.filter,
    List.mem_cons, List.mem_singleton, List.not_mem_nil, or_false]
  by_cases h1 : g = 19 ∨ g = 20 <;> by_cases h2 : g = 43 ∨ g = 44 <;>
    by_cases h3 : g = 0 ∨ g = 3 ∨ g = 45 ∨ g = 46 <;>
    simp [h1, h2, h3]

theorem esp32c3_warnings_eq (g : Int) :
    warnIf (decide (g = 2 ∨ g = 8 ∨ g = 9)) Msg.strapping g
      (warnIf (decide (g = 18 ∨ g = 19)) Msg.usb_jtag g [])
      = expectedCautions esp_chip_model_t.CHIP_ESP32C3 g := by
  simp only [expectedCautions, cautionCategories, cautionPins, warnIf, List.filter,
    List.mem_cons, List.mem_singleton, List.not_mem_nil, or_false]
  by_cases h1 : g = 18 ∨ g = 19 <;> by_cases h2 : g = 2 ∨ g = 8 ∨ g = 9 <;>
    simp [h1, h2]

/-- The whole log of an accepted call: the caution notices due, then the
no-pull warning of the ESP32 input-only pins, then the notice of the
`default` branch. -/
theorem validate_accepted_log (chip_info : esp_chip_info_t) (soc : SocCaps) (gpio : Int)
    (mode : Mode) (h : (validate chip_info soc gpio mode).1 = ESP_OK) :
    (validate chip_info soc gpio mode).2 =
      expectedCautions chip_info.model gpio
      ++ (if chip_info.model = esp_chip_model_t.CHIP_ESP32
              ∧ gpio ≥ 34 ∧ gpio ≤ 39 ∧ mode = Mode.INPUT
          then [ESP_LOGW Msg.no_pull gpio] else [])
      ++ (match chip_info.model with
          | esp_chip_model_t.other model => [ESP_LOGW Msg.chip_not_handled model]
          | _ => []) := by
  have hne := ESP_ERR_INVALID_ARG_ne_ESP_OK
  obtain ⟨model⟩ := chip_info
  cases model <;>
    simp only [validate, esp32_warnings_eq, esp32s3_warnings_eq, esp32c3_warnings_eq,
      true_and, reduceCtorEq, false_and, if_false, List.append_nil] at h ⊢ <;>
    split_ifs at h ⊢ <;>
    first
    | exact absurd h hne
    | rfl
    | simp only [List.append_nil]

theorem expectedCautions_isCaution (model : esp_chip_model_t) (g : Int) :
    ∀ e ∈ expectedCautions model g, e.msg.isCaution = true := by
  intro e he
  simp only [expectedCautions, List.mem_map, List.mem_filter] at he
  obtain ⟨c, ⟨hc, -⟩, rfl⟩ := he
  cases model <;> simp only [cautionCategories, List.mem_cons, List.mem_singleton,
    List.not_mem_nil, or_false] at hc <;>
    first
    | contradiction
    | (rcases hc with rfl | rfl | rfl <;> rfl)

theorem cautionNotices_expectedCautions (model : esp_chip_model_t) (g : Int) :
    cautionNotices (expectedCautions model g) = expectedCautions model g := by
  unfold cautionNotices
  rw [List.filter_eq_self]
  exact expectedCautions_isCaution model g

theorem ESP_LOGW_injective (g : Int) : Function.Injective (fun c => ESP_LOGW c g) := by
  intro a b h
  simp only [ESP_LOGW, LogEntry.mk.injEq, true_and, and_true] at h
  exact h

theorem count_expectedCautions (model : esp_chip_model_t) (cat : Msg) (g : Int) :
    List.count (ESP_LOGW cat g) (expectedCautions model g)
      = if g ∈ cautionPins model cat then 1 else 0 := by
  unfold expectedCautions
  rw [List.count_map_of_injective _ _ (ESP_LOGW_injective g)]
  by_cases hp : g ∈ cautionPins model cat
  · rw [List.count_filter (by simpa using hp), if_pos hp]
    cases model <;> cases cat <;>
      first
      | decide
      | (simp only [cautionPins, List.not_mem_nil] at hp)
  · rw [if_neg hp, List.count_eq_zero, List.mem_filter]
    simp [hp]

/-- No caution table of a chip model meets the model's reserved table. -/
theorem cautionPins_not_reserved (model : esp_chip_model_t) (cat : Msg) (g : Int)
    (h : g ∈ cautionPins model cat) : g ∉ reservedPins model := by
  cases model <;> cases cat <;>
    simp only [cautionPins, reservedPins, List.mem_cons, List.mem_singleton,
      List.not_mem_nil, or_false] at h ⊢ <;>
    omega

/-! ## The steps of a run agree with its outcome -/

theorem loggedOf_append (a b : List Event) : loggedOf (a ++ b) = loggedOf a ++ loggedOf b := by
  induction a with
  | nil => rfl
  | cons x xs ih =>
    cases x with
    | cond c => simpa only [List.cons_append, loggedOf] using ih
    | logged e =>
      show e :: loggedOf (xs ++ b) = e :: (loggedOf xs ++ loggedOf b)
      rw [ih]

theorem loggedOf_stepWarnIf (c : Bool) (chk : Check) (msg : Msg) (g : Int)
    (ev : List Event) :
    loggedOf (stepWarnIf c chk msg g ev) = warnIf c msg g (loggedOf ev) := by
  cases c <;> simp [stepWarnIf, warnIf, loggedOf_append, loggedOf]

/-- Dropping the evaluated conditions from the steps of a run leaves the
outcome that `validate` computes. -/
theorem validateSteps_outcome (chip_info : esp_chip_info_t) (soc : SocCaps) (gpio : Int)
    (mode : Mode) :
    ((validateSteps chip_info soc gpio mode).1, loggedOf (validateSteps chip_info soc gpio mode).2)
      = validate chip_info soc gpio mode := by
  obtain ⟨model⟩ := chip_info
  cases model <;> simp only [validateSteps, validate] <;> split_ifs <;>
    simp [loggedOf_append, loggedOf_stepWarnIf, loggedOf]

theorem warnIf_pos {c : Bool} (h : c = true) (msg : Msg) (g : Int) (log : List LogEntry) :
    warnIf c msg g log = log ++ [ESP_LOGW msg g] := by
  simp only [warnIf, h, if_true]

theorem warnIf_neg {c : Bool} (h : c = false) (msg : Msg) (g : Int) (log : List LogEntry) :
    warnIf c msg g log = log := by
  simp [warnIf, h]

/-! ## Shape of the log: one error on rejection, warnings only on acceptance -/

theorem validate_status_cases (chip_info : esp_chip_info_t) (soc : SocCaps) (gpio : Int)
    (mode : Mode) :
    (validate chip_info soc gpio mode).1 = ESP_OK
    ∨ (validate chip_info soc gpio mode).1 = ESP_ERR_INVALID_ARG := by
  rw [validate_status]
  split_ifs <;> simp

theorem validate_rejected_log (chip_info : esp_chip_info_t) (soc : SocCaps) (gpio : Int)
    (mode : Mode) (h : (validate chip_info soc gpio mode).1 = ESP_ERR_INVALID_ARG) :
    ∃ m : Msg, (validate chip_info soc gpio mode).2 = [ESP_LOGE m gpio]
      ∧ m.reason ≠ none := by
  have hne := ESP_ERR_INVALID_ARG_ne_ESP_OK
  obtain ⟨model⟩ := chip_info
  cases model <;> simp only [validate] at h ⊢ <;> split_ifs at h ⊢ <;>
    first
    | exact absurd h.symm hne
    | exact ⟨_, rfl, by simp [Msg.reason]⟩

theorem isCaution_reason (m : Msg) (h : m.isCaution = true) : m.reason = none := by
  cases m <;> first | rfl | (simp only [Msg.isCaution] at h; contradiction)

theorem validate_accepted_warnings (chip_info : esp_chip_info_t) (soc : SocCaps)
    (gpio : Int) (mode : Mode) (h : (validate chip_info soc gpio mode).1 = ESP_OK) :
    ∀ e ∈ (validate chip_info soc gpio mode).2, e.level = Level.W ∧ e.msg.reason = none := by
  intro e he
  rw [validate_accepted_log chip_info soc gpio mode h, List.mem_append, List.mem_append] at he
  rcases he with (he | he) | he
  · refine ⟨?_, isCaution_reason _ (expectedCautions_isCaution _ _ e he)⟩
    simp only [expectedCautions, List.mem_map] at he
    obtain ⟨c, -, rfl⟩ := he
    rfl
  · split_ifs at he
    · rw [List.mem_singleton] at he
      subst he
      exact ⟨rfl, rfl⟩
    · exact absurd he (List.not_mem_nil _)
  · obtain ⟨model⟩ := chip_info
    cases model <;> simp only [List.not_mem_nil, List.mem_singleton] at he
    subst he
    exact ⟨rfl, rfl⟩

/-! ## Properties -/

/-- C1. For every chip model, pin, mode and target tables, `validate` returns
`ESP_OK` exactly when the pin is in `0 .. SOC_GPIO_PIN_COUNT - 1`, is a valid
GPIO, is a valid output GPIO whenever the mode is `OUTPUT`, and is not one of
the model's reserved pins; in every other case it returns
`ESP_ERR_INVALID_ARG`; no third status is returned. -/
theorem validate_status_characterisation (chip_info : esp_chip_info_t) (soc : SocCaps)
    (gpio : Int) (mode : Mode) :
    ((validate chip_info soc gpio mode).1 = ESP_OK ↔
        (0 ≤ gpio ∧ gpio < soc.SOC_GPIO_PIN_COUNT)
        ∧ soc.GPIO_IS_VALID_GPIO gpio = true
        ∧ (mode = Mode.OUTPUT → soc.GPIO_IS_VALID_OUTPUT_GPIO gpio = true)
        ∧ gpio ∉ reservedPins chip_info.model)
    ∧ (¬ ((0 ≤ gpio ∧ gpio < soc.SOC_GPIO_PIN_COUNT)
        ∧ soc.GPIO_IS_VALID_GPIO gpio = true
        ∧ (mode = Mode.OUTPUT → soc.GPIO_IS_VALID_OUTPUT_GPIO gpio = true)
        ∧ gpio ∉ reservedPins chip_info.model) →
        (validate chip_info soc gpio mode).1 = ESP_ERR_INVALID_ARG)
    ∧ ((validate chip_info soc gpio mode).1 = ESP_OK
        ∨ (validate chip_info soc gpio mode).1 = ESP_ERR_INVALID_ARG) := by
  have hne := ESP_ERR_INVALID_ARG_ne_ESP_OK
  rw [validate_status, mem_reservedPins_iff]
  have hr : (0 ≤ gpio ∧ gpio < soc.SOC_GPIO_PIN_COUNT)
      ↔ ¬ (gpio < 0 ∨ gpio ≥ soc.SOC_GPIO_PIN_COUNT) := by omega
  rw [hr]
  split_ifs with h1 h2 h3 h4 <;> simp only [hne, hne.symm] <;> tauto

/-- C2. A pin in the reserved table of the chip model (ESP32 6..11, 16, 17;
ESP32-S3 26..32 and 33..37; ESP32-C3 12..17) is rejected with
`ESP_ERR_INVALID_ARG` for mode `INPUT` and for mode `OUTPUT`, whatever the
target's pin count, valid-GPIO and valid-output tables are. -/
theorem reserved_pin_rejected_in_both_modes (chip_info : esp_chip_info_t) (soc : SocCaps)
    (gpio : Int) (h : gpio ∈ reservedPins chip_info.model) :
    (validate chip_info soc gpio Mode.INPUT).1 = ESP_ERR_INVALID_ARG
    ∧ (validate chip_info soc gpio Mode.OUTPUT).1 = ESP_ERR_INVALID_ARG := by
  rw [mem_reservedPins_iff] at h
  constructor <;> rw [validate_status] <;> split_ifs <;> rfl

theorem reserved_pin_rejected_in_both_modes_witness :
    (validate ⟨esp_chip_model_t.CHIP_ESP32⟩ esp32Soc 16 Mode.INPUT).1 = ESP_ERR_INVALID_ARG
    ∧ (validate ⟨esp_chip_model_t.CHIP_ESP32⟩ esp32Soc 16 Mode.OUTPUT).1
        = ESP_ERR_INVALID_ARG :=
  reserved_pin_rejected_in_both_modes ⟨esp_chip_model_t.CHIP_ESP32⟩ esp32Soc 16 (by decide)

/-- C3. For every chip model and mode, a pin that is negative or not below
`SOC_GPIO_PIN_COUNT` is rejected with `ESP_ERR_INVALID_ARG`, and the only log
call made is the error "GPIO %d is out of range". -/
theorem out_of_range_pin_rejected (chip_info : esp_chip_info_t) (soc : SocCaps)
    (gpio : Int) (mode : Mode) (h : gpio < 0 ∨ gpio ≥ soc.SOC_GPIO_PIN_COUNT) :
    validate chip_info soc gpio mode
      = (ESP_ERR_INVALID_ARG, [ESP_LOGE Msg.out_of_range gpio]) :=
  validate_out_of_range chip_info soc gpio mode h

/-- The three calls of the unit test "Edge cases" on the ESP32, where
`GPIO_NUM_MAX` is 40. -/
theorem out_of_range_pin_rejected_witness :
    validate ⟨esp_chip_model_t.CHIP_ESP32⟩ esp32Soc 40 Mode.OUTPUT
      = (ESP_ERR_INVALID_ARG, [ESP_LOGE Msg.out_of_range 40])
    ∧ validate ⟨esp_chip_model_t.CHIP_ESP32⟩ esp32Soc (-1) Mode.OUTPUT
      = (ESP_ERR_INVALID_ARG, [ESP_LOGE Msg.out_of_range (-1)])
    ∧ validate ⟨esp_chip_model_t.CHIP_ESP32⟩ esp32Soc 100 Mode.OUTPUT
      = (ESP_ERR_INVALID_ARG, [ESP_LOGE Msg.out_of_range 100]) :=
  ⟨out_of_range_pin_rejected ⟨esp_chip_model_t.CHIP_ESP32⟩ esp32Soc 40 Mode.OUTPUT
      (by decide),
    out_of_range_pin_rejected ⟨esp_chip_model_t.CHIP_ESP32⟩ esp32Soc (-1) Mode.OUTPUT
      (by decide),
    out_of_range_pin_rejected ⟨esp_chip_model_t.CHIP_ESP32⟩ esp32Soc 100 Mode.OUTPUT
      (by decide)⟩

/-- C4. For every chip model, recognised or not, a pin that is in range and a
valid GPIO but not a valid output GPIO is rejected for mode `OUTPUT` with
`ESP_ERR_INVALID_ARG`, the log being the error
"GPIO %d is NOT a valid OUTPUT GPIO". -/
theorem output_incapable_pin_rejected (chip_info : esp_chip_info_t) (soc : SocCaps)
    (gpio : Int) (hlo : 0 ≤ gpio) (hhi : gpio < soc.SOC_GPIO_PIN_COUNT)
    (hvalid : soc.GPIO_IS_VALID_GPIO gpio = true)
    (hout : soc.GPIO_IS_VALID_OUTPUT_GPIO gpio = false) :
    validate chip_info soc gpio Mode.OUTPUT
      = (ESP_ERR_INVALID_ARG, [ESP_LOGE Msg.not_valid_output gpio]) :=
  validate_not_valid_output chip_info soc gpio Mode.OUTPUT (by omega) hvalid
    ⟨rfl, by simp [hout]⟩

theorem output_incapable_pin_rejected_witness :
    validate ⟨esp_chip_model_t.other 2⟩ esp32s2Soc 46 Mode.OUTPUT
      = (ESP_ERR_INVALID_ARG, [ESP_LOGE Msg.not_valid_output 46]) :=
  output_incapable_pin_rejected ⟨esp_chip_model_t.other 2⟩ esp32s2Soc 46
    (by decide) (by decide) (by decide) (by decide)

/-- C5. On the ESP32, with a target of 40 pins on which 34..39 are valid GPIOs
and not valid output GPIOs, every pin in 34..39 is rejected for mode `OUTPUT`
with the error "GPIO %d is NOT a valid OUTPUT GPIO", and for mode `INPUT` is
accepted with `ESP_OK`, the log being the warning
"GPIO %d has no pullup/pulldown support". -/
theorem esp32_input_only_pins (soc : SocCaps) (gpio : Int)
    (hcount : soc.SOC_GPIO_PIN_COUNT = 40)
    (hvalid : ∀ g : Int, 34 ≤ g → g ≤ 39 → soc.GPIO_IS_VALID_GPIO g = true)
    (hout : ∀ g : Int, 34 ≤ g → g ≤ 39 → soc.GPIO_IS_VALID_OUTPUT_GPIO g = false)
    (hlo : 34 ≤ gpio) (hhi : gpio ≤ 39) :
    validate ⟨esp_chip_model_t.CHIP_ESP32⟩ soc gpio Mode.OUTPUT
      = (ESP_ERR_INVALID_ARG, [ESP_LOGE Msg.not_valid_output gpio])
    ∧ validate ⟨esp_chip_model_t.CHIP_ESP32⟩ soc gpio Mode.INPUT
      = (ESP_OK, [ESP_LOGW Msg.no_pull gpio]) := by
  have h1 : ¬ (gpio < 0 ∨ gpio ≥ soc.SOC_GPIO_PIN_COUNT) := by omega
  have h2 := hvalid gpio hlo hhi
  have h3 := hout gpio hlo hhi
  refine ⟨validate_not_valid_output _ soc gpio Mode.OUTPUT h1 h2 ⟨rfl, by simp [h3]⟩, ?_⟩
  have h4 : ¬ ((gpio ≥ 6 ∧ gpio ≤ 11) ∨ gpio = 16 ∨ gpio = 17) := by omega
  have h5 : gpio ≥ 34 ∧ gpio ≤ 39 ∧ Mode.INPUT = Mode.INPUT := ⟨hlo, hhi, rfl⟩
  have u1 : ¬ (gpio = 1 ∨ gpio = 3) := by omega
  have u2 : ¬ (gpio ≥ 12 ∧ gpio ≤ 15) := by omega
  have u3 : ¬ (gpio = 0 ∨ gpio = 2 ∨ gpio = 5 ∨ gpio = 12 ∨ gpio = 15) := by omega
  simp [validate, warnIf, h1, h2, h4, h5, u1, u2, u3]

theorem esp32_input_only_pins_witness :
    validate ⟨esp_chip_model_t.CHIP_ESP32⟩ esp32Soc 36 Mode.OUTPUT
      = (ESP_ERR_INVALID_ARG, [ESP_LOGE Msg.not_valid_output 36])
    ∧ validate ⟨esp_chip_model_t.CHIP_ESP32⟩ esp32Soc 36 Mode.INPUT
      = (ESP_OK, [ESP_LOGW Msg.no_pull 36]) :=
  esp32_input_only_pins esp32Soc 36 rfl
    (fun g h1 h2 => by simp only [esp32Soc, decide_eq_true_eq]; omega)
    (fun g h1 h2 => by simp only [esp32Soc, decide_eq_false_iff_not]; omega)
    (by decide) (by decide)

/-- C6. For every chip model and every pin in one of the model's caution tables
(ESP32: UART0 1, 3; JTAG 12..15; strapping 0, 2, 5, 12, 15. ESP32-S3: USB-JTAG
19, 20; UART0 43, 44; strapping 0, 3, 45, 46. ESP32-C3: USB-JTAG 18, 19;
strapping 2, 8, 9), if the target reports the pin in range, a valid GPIO and a
valid output GPIO, then `validate` returns `ESP_OK` for mode `OUTPUT` and for
mode `INPUT`; and no caution table of a model meets that model's reserved
table. -/
theorem caution_pins_not_rejected :
    (∀ (chip_info : esp_chip_info_t) (soc : SocCaps) (gpio : Int) (cat : Msg),
      gpio ∈ cautionPins chip_info.model cat →
      0 ≤ gpio → gpio < soc.SOC_GPIO_PIN_COUNT →
      soc.GPIO_IS_VALID_GPIO gpio = true →
      soc.GPIO_IS_VALID_OUTPUT_GPIO gpio = true →
      (validate chip_info soc gpio Mode.OUTPUT).1 = ESP_OK
      ∧ (validate chip_info soc gpio Mode.INPUT).1 = ESP_OK)
    ∧ (∀ (model : esp_chip_model_t) (cat : Msg) (gpio : Int),
      gpio ∈ cautionPins model cat → gpio ∉ reservedPins model) := by
  refine ⟨?_, cautionPins_not_reserved⟩
  intro chip_info soc gpio cat hmem hlo hhi hvalid hout
  have hres := cautionPins_not_reserved chip_info.model cat gpio hmem
  rw [mem_reservedPins_iff] at hres
  have hr : ¬ (gpio < 0 ∨ gpio ≥ soc.SOC_GPIO_PIN_COUNT) := by omega
  constructor <;> rw [validate_status] <;>
    simp only [hr, hvalid, hout, hres, not_true_eq_false, and_false, if_false]

/-- The ESP32 strapping and JTAG pin 12, on the ESP32 target. -/
theorem caution_pins_not_rejected_witness :
    (validate ⟨esp_chip_model_t.CHIP_ESP32⟩ esp32Soc 12 Mode.OUTPUT).1 = ESP_OK
    ∧ (validate ⟨esp_chip_model_t.CHIP_ESP32⟩ esp32Soc 12 Mode.INPUT).1 = ESP_OK :=
  caution_pins_not_rejected.1 ⟨esp_chip_model_t.CHIP_ESP32⟩ esp32Soc 12 Msg.jtag
    (by decide) (by decide) (by decide) (by decide) (by decide)

/-- C7. For every chip model that `validate` names, every mode and every pin
for which `validate` returns `ESP_OK`, the caution notices logged (UART0, JTAG,
USB-JTAG, strapping) are exactly the warnings of the categories whose table for
that model holds the pin, in the order of the checks: each is logged once, none
is missing and none is extra.  In particular, on the ESP32 pins 12 and 15 get
the JTAG notice and the strapping notice, and pin 4 gets no caution notice. -/
theorem caution_notices_exact (chip_info : esp_chip_info_t) (soc : SocCaps) (gpio : Int)
    (mode : Mode) (hrec : recognised chip_info.model = true)
    (hok : (validate chip_info soc gpio mode).1 = ESP_OK) :
    cautionNotices (validate chip_info soc gpio mode).2
        = expectedCautions chip_info.model gpio
    ∧ (∀ cat : Msg, cat.isCaution = true →
        List.count (ESP_LOGW cat gpio) (validate chip_info soc gpio mode).2
          = if gpio ∈ cautionPins chip_info.model cat then 1 else 0)
    ∧ (chip_info.model = esp_chip_model_t.CHIP_ESP32 → (gpio = 12 ∨ gpio = 15) →
        cautionNotices (validate chip_info soc gpio mode).2
          = [ESP_LOGW Msg.jtag gpio, ESP_LOGW Msg.strapping gpio])
    ∧ (chip_info.model = esp_chip_model_t.CHIP_ESP32 → gpio = 4 →
        cautionNotices (validate chip_info soc gpio mode).2 = []) := by
  have hlog := validate_accepted_log chip_info soc gpio mode hok
  have hmain : cautionNotices (validate chip_info soc gpio mode).2
      = expectedCautions chip_info.model gpio := by
    rw [hlog]
    obtain ⟨model⟩ := chip_info
    cases model <;>
      first
      | (simp only [recognised] at hrec; contradiction)
      | (simp only [cautionNotices, List.filter_append, List.append_nil]
         rw [← cautionNotices, cautionNotices_expectedCautions]
         split_ifs <;> simp [ESP_LOGW, Msg.isCaution])
  refine ⟨hmain, ?_, ?_, ?_⟩
  · intro cat hcat
    rw [hlog]
    obtain ⟨model⟩ := chip_info
    rw [List.count_append, List.count_append, count_expectedCautions]
    have h1 : ∀ l : List LogEntry, l = [ESP_LOGW Msg.no_pull gpio] ∨ l = [] →
        List.count (ESP_LOGW cat gpio) l = 0 := by
      rintro l (rfl | rfl)
      · cases cat <;>
          first
          | (simp only [Msg.isCaution] at hcat; contradiction)
          | simp [ESP_LOGW]
      · rfl
    rw [h1 _ (by split_ifs <;> simp)]
    cases model <;>
      first
      | (simp only [recognised] at hrec; contradiction)
      | simp
  · intro hm hg
    rw [hmain, hm]
    rcases hg with rfl | rfl <;> decide
  · intro hm hg
    rw [hmain, hm, hg]
    decide

theorem caution_notices_exact_witness :
    cautionNotices (validate ⟨esp_chip_model_t.CHIP_ESP32⟩ esp32Soc 12 Mode.OUTPUT).2
      = [ESP_LOGW Msg.jtag 12, ESP_LOGW Msg.strapping 12] :=
  (caution_notices_exact ⟨esp_chip_model_t.CHIP_ESP32⟩ esp32Soc 12 Mode.OUTPUT rfl
    (by decide)).2.2.1 rfl (Or.inl rfl)

/-- C8, as stated, fails: on the ESP32-S2 (chip model 2, not named by the
`switch`) pin 46 is in range and a valid GPIO, yet `validate(46, OUTPUT)` is
rejected, because the mode check runs before the `switch`. -/
theorem unrecognised_family_output_rejected :
    recognised (esp_chip_model_t.other 2) = false
    ∧ (0 : Int) ≤ 46 ∧ (46 : Int) < esp32s2Soc.SOC_GPIO_PIN_COUNT
    ∧ esp32s2Soc.GPIO_IS_VALID_GPIO 46 = true
    ∧ validate ⟨esp_chip_model_t.other 2⟩ esp32s2Soc 46 Mode.OUTPUT
        = (ESP_ERR_INVALID_ARG, [ESP_LOGE Msg.not_valid_output 46])
    ∧ ¬ ((validate ⟨esp_chip_model_t.other 2⟩ esp32s2Soc 46 Mode.INPUT).1 = ESP_OK
        ∧ (validate ⟨esp_chip_model_t.other 2⟩ esp32s2Soc 46 Mode.OUTPUT).1 = ESP_OK) := by
  decide

/-- C8, amended. For a chip model that is none of ESP32, ESP32-S3, ESP32-C3 and
every pin that is in range and a valid GPIO, `validate` returns `ESP_OK` for
mode `INPUT`; for mode `OUTPUT` it returns `ESP_OK` exactly when the pin is a
valid output GPIO, and `ESP_ERR_INVALID_ARG` otherwise. -/
theorem unrecognised_family_basic_validation (model : Int) (soc : SocCaps) (gpio : Int)
    (hlo : 0 ≤ gpio) (hhi : gpio < soc.SOC_GPIO_PIN_COUNT)
    (hvalid : soc.GPIO_IS_VALID_GPIO gpio = true) :
    (validate ⟨esp_chip_model_t.other model⟩ soc gpio Mode.INPUT).1 = ESP_OK
    ∧ ((validate ⟨esp_chip_model_t.other model⟩ soc gpio Mode.OUTPUT).1 = ESP_OK
        ↔ soc.GPIO_IS_VALID_OUTPUT_GPIO gpio = true)
    ∧ (soc.GPIO_IS_VALID_OUTPUT_GPIO gpio = false →
        (validate ⟨esp_chip_model_t.other model⟩ soc gpio Mode.OUTPUT).1
          = ESP_ERR_INVALID_ARG) := by
  have hne := ESP_ERR_INVALID_ARG_ne_ESP_OK
  have hr : ¬ (gpio < 0 ∨ gpio ≥ soc.SOC_GPIO_PIN_COUNT) := by omega
  simp only [validate_status, reservedCond, hr, hvalid, if_false, not_true_eq_false,
    reduceCtorEq, false_and, true_and]
  cases hout : soc.GPIO_IS_VALID_OUTPUT_GPIO gpio <;> simp [hne]

theorem unrecognised_family_basic_validation_witness :
    (validate ⟨esp_chip_model_t.other 2⟩ esp32s2Soc 45 Mode.INPUT).1 = ESP_OK
    ∧ ((validate ⟨esp_chip_model_t.other 2⟩ esp32s2Soc 45 Mode.OUTPUT).1 = ESP_OK
        ↔ esp32s2Soc.GPIO_IS_VALID_OUTPUT_GPIO 45 = true)
    ∧ (esp32s2Soc.GPIO_IS_VALID_OUTPUT_GPIO 45 = false →
        (validate ⟨esp_chip_model_t.other 2⟩ esp32s2Soc 45 Mode.OUTPUT).1
          = ESP_ERR_INVALID_ARG) :=
  unrecognised_family_basic_validation 2 esp32s2Soc 45 (by decide) (by decide) (by decide)

/-- C9. On the ESP32, with a target of 40 pins on which pins 1, 4, 6 and 34 are
valid GPIOs, pins 1, 4 and 6 are valid output GPIOs and pin 34 is not:
`validate(6, OUTPUT)` is rejected with the reserved-for-flash error;
`validate(1, OUTPUT)` is `ESP_OK` with the UART0 warning alone;
`validate(34, OUTPUT)` is rejected with the not-a-valid-output error;
`validate(34, INPUT)` is `ESP_OK` with the no-pull warning alone;
`validate(4, INPUT)` is `ESP_OK` with an empty log; `validate(200, OUTPUT)` is
rejected with the out-of-range error. -/
theorem esp32_concrete_scenarios (soc : SocCaps)
    (hcount : soc.SOC_GPIO_PIN_COUNT = 40)
    (hv1 : soc.GPIO_IS_VALID_GPIO 1 = true) (hv4 : soc.GPIO_IS_VALID_GPIO 4 = true)
    (hv6 : soc.GPIO_IS_VALID_GPIO 6 = true) (hv34 : soc.GPIO_IS_VALID_GPIO 34 = true)
    (ho1 : soc.GPIO_IS_VALID_OUTPUT_GPIO 1 = true)
    (ho4 : soc.GPIO_IS_VALID_OUTPUT_GPIO 4 = true)
    (ho6 : soc.GPIO_IS_VALID_OUTPUT_GPIO 6 = true)
    (ho34 : soc.GPIO_IS_VALID_OUTPUT_GPIO 34 = false) :
    validate ⟨esp_chip_model_t.CHIP_ESP32⟩ soc 6 Mode.OUTPUT
      = (ESP_ERR_INVALID_ARG, [ESP_LOGE Msg.reserved_flash_psram_esp32 6])
    ∧ validate ⟨esp_chip_model_t.CHIP_ESP32⟩ soc 1 Mode.OUTPUT
      = (ESP_OK, [ESP_LOGW Msg.uart0 1])
    ∧ validate ⟨esp_chip_model_t.CHIP_ESP32⟩ soc 34 Mode.OUTPUT
      = (ESP_ERR_INVALID_ARG, [ESP_LOGE Msg.not_valid_output 34])
    ∧ validate ⟨esp_chip_model_t.CHIP_ESP32⟩ soc 34 Mode.INPUT
      = (ESP_OK, [ESP_LOGW Msg.no_pull 34])
    ∧ validate ⟨esp_chip_model_t.CHIP_ESP32⟩ soc 4 Mode.INPUT = (ESP_OK, [])
    ∧ validate ⟨esp_chip_model_t.CHIP_ESP32⟩ soc 200 Mode.OUTPUT
      = (ESP_ERR_INVALID_ARG, [ESP_LOGE Msg.out_of_range 200]) := by
  refine ⟨?_, ?_, ?_, ?_, ?_, ?_⟩ <;>
    simp [validate, warnIf, hcount, hv1, hv4, hv6, hv34, ho1, ho4, ho6, ho34]

theorem esp32_concrete_scenarios_witness :
    validate ⟨esp_chip_model_t.CHIP_ESP32⟩ esp32Soc 6 Mode.OUTPUT
      = (ESP_ERR_INVALID_ARG, [ESP_LOGE Msg.reserved_flash_psram_esp32 6])
    ∧ validate ⟨esp_chip_model_t.CHIP_ESP32⟩ esp32Soc 1 Mode.OUTPUT
      = (ESP_OK, [ESP_LOGW Msg.uart0 1])
    ∧ validate ⟨esp_chip_model_t.CHIP_ESP32⟩ esp32Soc 34 Mode.OUTPUT
      = (ESP_ERR_INVALID_ARG, [ESP_LOGE Msg.not_valid_output 34])
    ∧ validate ⟨esp_chip_model_t.CHIP_ESP32⟩ esp32Soc 34 Mode.INPUT
      = (ESP_OK, [ESP_LOGW Msg.no_pull 34])
    ∧ validate ⟨esp_chip_model_t.CHIP_ESP32⟩ esp32Soc 4 Mode.INPUT = (ESP_OK, [])
    ∧ validate ⟨esp_chip_model_t.CHIP_ESP32⟩ esp32Soc 200 Mode.OUTPUT
      = (ESP_ERR_INVALID_ARG, [ESP_LOGE Msg.out_of_range 200]) :=
  esp32_concrete_scenarios esp32Soc rfl (by decide) (by decide) (by decide) (by decide)
    (by decide) (by decide) (by decide) (by decide)

/-- C10. Whenever `validate` returns `ESP_ERR_INVALID_ARG`, for any chip model,
pin, mode and target tables, it logs exactly one error, for the pin, and its
reason is that of the first failing check in the order range, existence, mode
capability, bus reservation.  So a pin that passes the range check and is both
not a valid GPIO and in a reserved table is reported as not a valid GPIO, and a
valid pin that is both not a valid output GPIO and reserved, requested as
`OUTPUT`, is reported as not a valid output rather than as reserved. -/
theorem rejection_reason_is_first_failing_check (chip_info : esp_chip_info_t)
    (soc : SocCaps) (gpio : Int) (mode : Mode) :
    ((validate chip_info soc gpio mode).1 = ESP_ERR_INVALID_ARG →
      ∃ (m : Msg) (r : Reason),
        (validate chip_info soc gpio mode).2 = [ESP_LOGE m gpio]
        ∧ m.reason = some r
        ∧ firstFailingCheck chip_info.model soc gpio mode = some r)
    ∧ (0 ≤ gpio → gpio < soc.SOC_GPIO_PIN_COUNT →
        soc.GPIO_IS_VALID_GPIO gpio = false → gpio ∈ reservedPins chip_info.model →
        validate chip_info soc gpio mode
          = (ESP_ERR_INVALID_ARG, [ESP_LOGE Msg.not_valid_gpio gpio]))
    ∧ (0 ≤ gpio → gpio < soc.SOC_GPIO_PIN_COUNT →
        soc.GPIO_IS_VALID_GPIO gpio = true →
        soc.GPIO_IS_VALID_OUTPUT_GPIO gpio = false → gpio ∈ reservedPins chip_info.model →
        validate chip_info soc gpio Mode.OUTPUT
          = (ESP_ERR_INVALID_ARG, [ESP_LOGE Msg.not_valid_output gpio])) := by
  refine ⟨?_, ?_, ?_⟩
  · intro herr
    have hne := ESP_ERR_INVALID_ARG_ne_ESP_OK
    by_cases h1 : gpio < 0 ∨ gpio ≥ soc.SOC_GPIO_PIN_COUNT
    · exact ⟨Msg.out_of_range, Reason.OutOfRange,
        by rw [validate_out_of_range chip_info soc gpio mode h1], rfl,
        by simp only [firstFailingCheck, if_pos h1]⟩
    by_cases h2 : soc.GPIO_IS_VALID_GPIO gpio = true
    swap
    · exact ⟨Msg.not_valid_gpio, Reason.NotAPhysicalPin,
        by rw [validate_not_valid_gpio chip_info soc gpio mode h1 h2], rfl,
        by simp only [firstFailingCheck, if_neg h1, Bool.not_eq_true _ ▸ h2, if_true]⟩
    by_cases h3 : mode = Mode.OUTPUT ∧ ¬ (soc.GPIO_IS_VALID_OUTPUT_GPIO gpio = true)
    · exact ⟨Msg.not_valid_output, Reason.IncompatibleMode,
        by rw [validate_not_valid_output chip_info soc gpio mode h1 h2 h3], rfl,
        by simp only [firstFailingCheck, if_neg h1, h2, Bool.true_eq_false, if_false,
             h3.1, Bool.not_eq_true _ ▸ h3.2, and_self, if_true]⟩
    have h3' : ¬ (mode = Mode.OUTPUT ∧ soc.GPIO_IS_VALID_OUTPUT_GPIO gpio = false) := by
      simpa using h3
    have hres : gpio ∈ reservedPins chip_info.model := by
      rw [mem_reservedPins_iff]
      by_contra hres
      rw [validate_status, if_neg h1, if_neg (not_not.mpr h2), if_neg h3, if_neg hres] at herr
      exact hne herr.symm
    have hff : firstFailingCheck chip_info.model soc gpio mode = some Reason.ReservedForBus := by
      simp only [firstFailingCheck, if_neg h1, h2, Bool.true_eq_false, if_false, if_neg h3',
        if_pos hres]
    rw [hff]
    rw [mem_reservedPins_iff] at hres
    obtain ⟨model⟩ := chip_info
    cases model <;> simp only [reservedCond] at hres <;>
      simp only [validate, if_neg h1, not_not.mpr h2, if_false, if_neg h3]
    · exact ⟨Msg.reserved_flash_psram_esp32, _, by rw [if_pos hres], rfl, rfl⟩
    · by_cases h26 : gpio ≥ 26 ∧ gpio ≤ 32
      · exact ⟨Msg.reserved_spi_flash_esp32s3, _, by rw [if_pos h26], rfl, rfl⟩
      · have h33 : gpio ≥ 33 ∧ gpio ≤ 37 := by omega
        exact ⟨Msg.reserved_octal_flash_esp32s3, _, by rw [if_neg h26, if_pos h33], rfl, rfl⟩
    · exact ⟨Msg.reserved_spi_flash_esp32c3, _, by rw [if_pos hres], rfl, rfl⟩
  · intro hlo hhi hvalid _
    exact validate_not_valid_gpio chip_info soc gpio mode (by omega) (by simp [hvalid])
  · intro hlo hhi hvalid hout _
    exact validate_not_valid_output chip_info soc gpio Mode.OUTPUT (by omega) hvalid
      ⟨rfl, by simp [hout]⟩

/-- The ESP32-S3 reserved pins 28 and 34 on a target with the ESP32 tables,
where 28 is not a valid GPIO and 34 is not a valid output GPIO. -/
theorem rejection_reason_is_first_failing_check_witness :
    validate ⟨esp_chip_model_t.CHIP_ESP32S3⟩ esp32Soc 28 Mode.INPUT
      = (ESP_ERR_INVALID_ARG, [ESP_LOGE Msg.not_valid_gpio 28])
    ∧ validate ⟨esp_chip_model_t.CHIP_ESP32S3⟩ esp32Soc 34 Mode.OUTPUT
      = (ESP_ERR_INVALID_ARG, [ESP_LOGE Msg.not_valid_output 34])
    ∧ ∃ (m : Msg) (r : Reason),
        (validate ⟨esp_chip_model_t.CHIP_ESP32S3⟩ esp32Soc 34 Mode.INPUT).2
          = [ESP_LOGE m 34]
        ∧ m.reason = some r
        ∧ firstFailingCheck esp_chip_model_t.CHIP_ESP32S3 esp32Soc 34 Mode.INPUT = some r :=
  ⟨(rejection_reason_is_first_failing_check ⟨esp_chip_model_t.CHIP_ESP32S3⟩ esp32Soc 28
      Mode.INPUT).2.1 (by decide) (by decide) (by decide) (by decide),
    (rejection_reason_is_first_failing_check ⟨esp_chip_model_t.CHIP_ESP32S3⟩ esp32Soc 34
      Mode.OUTPUT).2.2 (by decide) (by decide) (by decide) (by decide) (by decide),
    (rejection_reason_is_first_failing_check ⟨esp_chip_model_t.CHIP_ESP32S3⟩ esp32Soc 34
      Mode.INPUT).1 (by decide)⟩

/-- C11. On the ESP32-S3 the rejection of a reserved pin tells the two reserved
ranges apart: a pin in 26..32 that passes the range, valid-GPIO and mode checks
is rejected with the "reserved for SPI Flash" error, a pin in 33..37 that passes
them with the "reserved for Octal Flash" error, and no call logs both. -/
theorem esp32s3_reserved_range_reported (soc : SocCaps) (gpio : Int) (mode : Mode) :
    (0 ≤ gpio → gpio < soc.SOC_GPIO_PIN_COUNT → soc.GPIO_IS_VALID_GPIO gpio = true →
      (mode = Mode.OUTPUT → soc.GPIO_IS_VALID_OUTPUT_GPIO gpio = true) →
      26 ≤ gpio → gpio ≤ 32 →
      validate ⟨esp_chip_model_t.CHIP_ESP32S3⟩ soc gpio mode
        = (ESP_ERR_INVALID_ARG, [ESP_LOGE Msg.reserved_spi_flash_esp32s3 gpio]))
    ∧ (0 ≤ gpio → gpio < soc.SOC_GPIO_PIN_COUNT → soc.GPIO_IS_VALID_GPIO gpio = true →
      (mode = Mode.OUTPUT → soc.GPIO_IS_VALID_OUTPUT_GPIO gpio = true) →
      33 ≤ gpio → gpio ≤ 37 →
      validate ⟨esp_chip_model_t.CHIP_ESP32S3⟩ soc gpio mode
        = (ESP_ERR_INVALID_ARG, [ESP_LOGE Msg.reserved_octal_flash_esp32s3 gpio]))
    ∧ ¬ ((∃ a : Int, ESP_LOGE Msg.reserved_spi_flash_esp32s3 a
            ∈ (validate ⟨esp_chip_model_t.CHIP_ESP32S3⟩ soc gpio mode).2)
        ∧ (∃ b : Int, ESP_LOGE Msg.reserved_octal_flash_esp32s3 b
            ∈ (validate ⟨esp_chip_model_t.CHIP_ESP32S3⟩ soc gpio mode).2)) := by
  refine ⟨?_, ?_, ?_⟩
  · intro hlo hhi hvalid hmode h26 h32
    have h1 : ¬ (gpio < 0 ∨ gpio ≥ soc.SOC_GPIO_PIN_COUNT) := by omega
    have h3 : ¬ (mode = Mode.OUTPUT ∧ ¬ (soc.GPIO_IS_VALID_OUTPUT_GPIO gpio = true)) :=
      fun h => h.2 (hmode h.1)
    have h4 : gpio ≥ 26 ∧ gpio ≤ 32 := ⟨h26, h32⟩
    simp only [validate, if_neg h1, not_not.mpr hvalid, if_false, if_neg h3, if_pos h4]
  · intro hlo hhi hvalid hmode h33 h37
    have h1 : ¬ (gpio < 0 ∨ gpio ≥ soc.SOC_GPIO_PIN_COUNT) := by omega
    have h3 : ¬ (mode = Mode.OUTPUT ∧ ¬ (soc.GPIO_IS_VALID_OUTPUT_GPIO gpio = true)) :=
      fun h => h.2 (hmode h.1)
    have h4 : ¬ (gpio ≥ 26 ∧ gpio ≤ 32) := by omega
    have h5 : gpio ≥ 33 ∧ gpio ≤ 37 := ⟨h33, h37⟩
    simp only [validate, if_neg h1, not_not.mpr hvalid, if_false, if_neg h3, if_neg h4,
      if_pos h5]
  · rintro ⟨⟨a, ha⟩, ⟨b, hb⟩⟩
    rcases validate_status_cases ⟨esp_chip_model_t.CHIP_ESP32S3⟩ soc gpio mode with hok | herr
    · have := (validate_accepted_warnings _ soc gpio mode hok _ ha).1
      simp [ESP_LOGE] at this
    · obtain ⟨m, hm, -⟩ := validate_rejected_log _ soc gpio mode herr
      rw [hm, List.mem_singleton] at ha hb
      simp only [ESP_LOGE, LogEntry.mk.injEq, true_and] at ha hb
      have hboth : Msg.reserved_spi_flash_esp32s3 = Msg.reserved_octal_flash_esp32s3 :=
        ha.1.trans hb.1.symm
      contradiction

/-- Pins 30 and 35, for input, on the ESP32-S3 target. -/
theorem esp32s3_reserved_range_reported_witness :
    validate ⟨esp_chip_model_t.CHIP_ESP32S3⟩ esp32s3Soc 30 Mode.INPUT
      = (ESP_ERR_INVALID_ARG, [ESP_LOGE Msg.reserved_spi_flash_esp32s3 30])
    ∧ validate ⟨esp_chip_model_t.CHIP_ESP32S3⟩ esp32s3Soc 35 Mode.INPUT
      = (ESP_ERR_INVALID_ARG, [ESP_LOGE Msg.reserved_octal_flash_esp32s3 35]) :=
  ⟨(esp32s3_reserved_range_reported esp32s3Soc 30 Mode.INPUT).1
      (by decide) (by decide) (by decide) (by decide) (by decide) (by decide),
    (esp32s3_reserved_range_reported esp32s3Soc 35 Mode.INPUT).2.1
      (by decide) (by decide) (by decide) (by decide) (by decide) (by decide)⟩

/-- C12, as stated, fails in its last clause: for `validate(34, INPUT)` on the
ESP32 the UART0, JTAG and strapping conditions are evaluated, each before the
no-pull condition, so the call does not return without any caution match
having been evaluated for the pin.  The outcome is `ESP_OK` with the no-pull
warning alone. -/
theorem esp32_no_pull_caution_checks_evaluated :
    validateSteps ⟨esp_chip_model_t.CHIP_ESP32⟩ esp32Soc 34 Mode.INPUT
      = (ESP_OK,
          [Event.cond Check.range, Event.cond Check.valid_gpio,
            Event.cond Check.valid_output, Event.cond Check.esp32_flash,
            Event.cond Check.esp32_uart0, Event.cond Check.esp32_jtag,
            Event.cond Check.esp32_strapping, Event.cond Check.esp32_no_pull,
            Event.logged (ESP_LOGW Msg.no_pull 34)])
    ∧ validate ⟨esp_chip_model_t.CHIP_ESP32⟩ esp32Soc 34 Mode.INPUT
      = (ESP_OK, [ESP_LOGW Msg.no_pull 34])
    ∧ ¬ (∀ c : Check, c.isEsp32Caution = true →
          Event.cond c ∉ (validateSteps ⟨esp_chip_model_t.CHIP_ESP32⟩ esp32Soc 34
            Mode.INPUT).2) := by
  refine ⟨by decide, by decide, ?_⟩
  intro h
  exact h Check.esp32_uart0 rfl (by decide)

/-- C12, amended. On the ESP32, for every pin in 34..39 that is in range and a
valid GPIO, `validate(pin, INPUT)` returns `ESP_OK` and logs exactly one
notice, the no-pull warning; no UART0, JTAG or strapping notice is logged.  The
UART0, JTAG and strapping conditions are evaluated for the pin, before the
no-pull condition, and none of them holds; the call returns right after the
no-pull warning. -/
theorem esp32_no_pull_input (soc : SocCaps) (gpio : Int)
    (hlo : 34 ≤ gpio) (hhi : gpio ≤ 39) (hrange : gpio < soc.SOC_GPIO_PIN_COUNT)
    (hvalid : soc.GPIO_IS_VALID_GPIO gpio = true) :
    validate ⟨esp_chip_model_t.CHIP_ESP32⟩ soc gpio Mode.INPUT
      = (ESP_OK, [ESP_LOGW Msg.no_pull gpio])
    ∧ cautionNotices (validate ⟨esp_chip_model_t.CHIP_ESP32⟩ soc gpio Mode.INPUT).2 = []
    ∧ (∀ cat : Msg, gpio ∉ cautionPins esp_chip_model_t.CHIP_ESP32 cat)
    ∧ validateSteps ⟨esp_chip_model_t.CHIP_ESP32⟩ soc gpio Mode.INPUT
      = (ESP_OK,
          [Event.cond Check.range, Event.cond Check.valid_gpio,
            Event.cond Check.valid_output, Event.cond Check.esp32_flash,
            Event.cond Check.esp32_uart0, Event.cond Check.esp32_jtag,
            Event.cond Check.esp32_strapping, Event.cond Check.esp32_no_pull,
            Event.logged (ESP_LOGW Msg.no_pull gpio)]) := by
  have h1 : ¬ (gpio < 0 ∨ gpio ≥ soc.SOC_GPIO_PIN_COUNT) := by omega
  have h4 : ¬ ((gpio ≥ 6 ∧ gpio ≤ 11) ∨ gpio = 16 ∨ gpio = 17) := by omega
  have h5 : gpio ≥ 34 ∧ gpio ≤ 39 ∧ Mode.INPUT = Mode.INPUT := ⟨hlo, hhi, rfl⟩
  have u1 : ¬ (gpio = 1 ∨ gpio = 3) := by omega
  have u2 : ¬ (gpio ≥ 12 ∧ gpio ≤ 15) := by omega
  have u3 : ¬ (gpio = 0 ∨ gpio = 2 ∨ gpio = 5 ∨ gpio = 12 ∨ gpio = 15) := by omega
  have hval : validate ⟨esp_chip_model_t.CHIP_ESP32⟩ soc gpio Mode.INPUT
      = (ESP_OK, [ESP_LOGW Msg.no_pull gpio]) := by
    simp [validate, warnIf, h1, hvalid, h4, h5, u1, u2, u3]
  refine ⟨hval, ?_, ?_, ?_⟩
  · rw [hval]
    rfl
  · intro cat
    cases cat <;>
      simp only [cautionPins, List.mem_cons, List.mem_singleton, List.not_mem_nil,
        or_false, not_false_eq_true] <;>
      omega
  · simp [validateSteps, stepWarnIf, h1, hvalid, h4, h5, u1, u2, u3]

theorem esp32_no_pull_input_witness :
    validate ⟨esp_chip_model_t.CHIP_ESP32⟩ esp32Soc 39 Mode.INPUT
      = (ESP_OK, [ESP_LOGW Msg.no_pull 39])
    ∧ cautionNotices (validate ⟨esp_chip_model_t.CHIP_ESP32⟩ esp32Soc 39 Mode.INPUT).2 = []
    ∧ (∀ cat : Msg, (39 : Int) ∉ cautionPins esp_chip_model_t.CHIP_ESP32 cat)
    ∧ validateSteps ⟨esp_chip_model_t.CHIP_ESP32⟩ esp32Soc 39 Mode.INPUT
      = (ESP_OK,
          [Event.cond Check.range, Event.cond Check.valid_gpio,
            Event.cond Check.valid_output, Event.cond Check.esp32_flash,
            Event.cond Check.esp32_uart0, Event.cond Check.esp32_jtag,
            Event.cond Check.esp32_strapping, Event.cond Check.esp32_no_pull,
            Event.logged (ESP_LOGW Msg.no_pull 39)]) :=
  esp32_no_pull_input esp32Soc 39 (by decide) (by decide) (by decide) (by decide)

/-- C13. The early return of the no-pull check has no observable effect: on the
ESP32, for every pin, mode and target tables, `validate` gives the same status
and the same log calls in the same order as the variant in which the no-pull
check only logs its warning and falls through to the common return, and as the
variant in which the no-pull check with its early return stands before the
UART0, JTAG and strapping checks.  The reason is that 34..39 meets neither an
ESP32 caution table nor the ESP32 reserved table. -/
theorem esp32_early_return_unobservable (soc : SocCaps) (gpio : Int) (mode : Mode) :
    validate ⟨esp_chip_model_t.CHIP_ESP32⟩ soc gpio mode
      = validateFallThrough ⟨esp_chip_model_t.CHIP_ESP32⟩ soc gpio mode
    ∧ validate ⟨esp_chip_model_t.CHIP_ESP32⟩ soc gpio mode
      = validateNoPullFirst ⟨esp_chip_model_t.CHIP_ESP32⟩ soc gpio mode
    ∧ (∀ g : Int, 34 ≤ g → g ≤ 39 →
        g ∉ reservedPins esp_chip_model_t.CHIP_ESP32
        ∧ ∀ cat : Msg, g ∉ cautionPins esp_chip_model_t.CHIP_ESP32 cat) := by
  refine ⟨?_, ?_, ?_⟩
  · simp only [validate, validateFallThrough]
    split_ifs with h1 h2 h3 h4 h5 <;>
      first
      | rfl
      | rw [warnIf_pos (decide_eq_true h5)]
      | rw [warnIf_neg (decide_eq_false h5)]
  · simp only [validate, validateNoPullFirst]
    split_ifs with h1 h2 h3 h4 h5 <;>
      first
      | rfl
      | (rw [warnIf_neg (decide_eq_false (by omega : ¬ (gpio = 1 ∨ gpio = 3))),
            warnIf_neg (decide_eq_false (by omega : ¬ (gpio ≥ 12 ∧ gpio ≤ 15))),
            warnIf_neg (decide_eq_false
              (by omega : ¬ (gpio = 0 ∨ gpio = 2 ∨ gpio = 5 ∨ gpio = 12 ∨ gpio = 15)))]
         rfl)
  · intro g hlo hhi
    constructor
    · rw [mem_reservedPins_iff]
      simp only [reservedCond]
      omega
    · intro cat
      cases cat <;>
        simp only [cautionPins, List.mem_cons, List.mem_singleton, List.not_mem_nil,
          or_false, not_false_eq_true] <;>
        omega

/-- The three functions on the ESP32 input-only pin 36, for input. -/
theorem esp32_early_return_unobservable_witness :
    validateFallThrough ⟨esp_chip_model_t.CHIP_ESP32⟩ esp32Soc 36 Mode.INPUT
      = (ESP_OK, [ESP_LOGW Msg.no_pull 36])
    ∧ validateNoPullFirst ⟨esp_chip_model_t.CHIP_ESP32⟩ esp32Soc 36 Mode.INPUT
      = (ESP_OK, [ESP_LOGW Msg.no_pull 36])
    ∧ (36 : Int) ∉ reservedPins esp_chip_model_t.CHIP_ESP32 := by
  have h := esp32_early_return_unobservable esp32Soc 36 Mode.INPUT
  exact ⟨h.1.symm.trans (by decide), h.2.1.symm.trans (by decide),
    (h.2.2 36 (by decide) (by decide)).1⟩

/-- C14. The outcome is closed: for every chip model, pin, mode and target
tables, a call that returns `ESP_ERR_INVALID_ARG` logs exactly one error, which
carries a rejection reason, and no warning; a call that returns `ESP_OK` logs
no error, only warnings, none of which carries a rejection reason; and every
call returns one of the two. -/
theorem outcome_is_closed (chip_info : esp_chip_info_t) (soc : SocCaps) (gpio : Int)
    (mode : Mode) :
    ((validate chip_info soc gpio mode).1 = ESP_ERR_INVALID_ARG →
      (∃ m : Msg, errorsOf (validate chip_info soc gpio mode).2 = [ESP_LOGE m gpio]
        ∧ m.reason ≠ none)
      ∧ warningsOf (validate chip_info soc gpio mode).2 = [])
    ∧ ((validate chip_info soc gpio mode).1 = ESP_OK →
      errorsOf (validate chip_info soc gpio mode).2 = []
      ∧ warningsOf (validate chip_info soc gpio mode).2 = (validate chip_info soc gpio mode).2
      ∧ ∀ e ∈ (validate chip_info soc gpio mode).2, e.msg.reason = none)
    ∧ ((validate chip_info soc gpio mode).1 = ESP_ERR_INVALID_ARG
      ∨ (validate chip_info soc gpio mode).1 = ESP_OK) := by
  refine ⟨?_, ?_, (validate_status_cases chip_info soc gpio mode).symm⟩
  · intro herr
    obtain ⟨m, hm, hr⟩ := validate_rejected_log chip_info soc gpio mode herr
    rw [hm]
    exact ⟨⟨m, by simp [errorsOf, ESP_LOGE], hr⟩, by simp [warningsOf, ESP_LOGE]⟩
  · intro hok
    have hw := validate_accepted_warnings chip_info soc gpio mode hok
    refine ⟨?_, ?_, fun e he => (hw e he).2⟩
    · unfold errorsOf
      rw [List.filter_eq_nil_iff]
      intro e he
      simp [(hw e he).1]
    · unfold warningsOf
      rw [List.filter_eq_self]
      intro e he
      simp [(hw e he).1]

/-- A rejected and an accepted call on the ESP32 target. -/
theorem outcome_is_closed_witness :
    ((∃ m : Msg, errorsOf (validate ⟨esp_chip_model_t.CHIP_ESP32⟩ esp32Soc 6 Mode.INPUT).2
          = [ESP_LOGE m 6] ∧ m.reason ≠ none)
      ∧ warningsOf (validate ⟨esp_chip_model_t.CHIP_ESP32⟩ esp32Soc 6 Mode.INPUT).2 = [])
    ∧ (errorsOf (validate ⟨esp_chip_model_t.CHIP_ESP32⟩ esp32Soc 12 Mode.INPUT).2 = []
      ∧ warningsOf (validate ⟨esp_chip_model_t.CHIP_ESP32⟩ esp32Soc 12 Mode.INPUT).2
          = (validate ⟨esp_chip_model_t.CHIP_ESP32⟩ esp32Soc 12 Mode.INPUT).2
      ∧ ∀ e ∈ (validate ⟨esp_chip_model_t.CHIP_ESP32⟩ esp32Soc 12 Mode.INPUT).2,
          e.msg.reason = none) :=
  ⟨(outcome_is_closed ⟨esp_chip_model_t.CHIP_ESP32⟩ esp32Soc 6 Mode.INPUT).1 (by decide),
    (outcome_is_closed ⟨esp_chip_model_t.CHIP_ESP32⟩ esp32Soc 12 Mode.INPUT).2.1 (by decide)⟩

/-- C15. Mode monotonicity: for every chip model, pin and target tables, if
`validate(pin, OUTPUT)` returns `ESP_OK` then so does `validate(pin, INPUT)`;
and the pins accepted for input but not for output are exactly the pins that
are in range, valid GPIOs, not reserved for the model, and not valid output
GPIOs. -/
theorem output_accepted_implies_input_accepted (chip_info : esp_chip_info_t)
    (soc : SocCaps) (gpio : Int) :
    ((validate chip_info soc gpio Mode.OUTPUT).1 = ESP_OK →
      (validate chip_info soc gpio Mode.INPUT).1 = ESP_OK)
    ∧ (((validate chip_info soc gpio Mode.INPUT).1 = ESP_OK
        ∧ (validate chip_info soc gpio Mode.OUTPUT).1 ≠ ESP_OK)
      ↔ ((0 ≤ gpio ∧ gpio < soc.SOC_GPIO_PIN_COUNT)
        ∧ soc.GPIO_IS_VALID_GPIO gpio = true
        ∧ gpio ∉ reservedPins chip_info.model
        ∧ soc.GPIO_IS_VALID_OUTPUT_GPIO gpio = false)) := by
  have hne := ESP_ERR_INVALID_ARG_ne_ESP_OK
  rw [validate_status, validate_status, mem_reservedPins_iff]
  have hr : (0 ≤ gpio ∧ gpio < soc.SOC_GPIO_PIN_COUNT)
      ↔ ¬ (gpio < 0 ∨ gpio ≥ soc.SOC_GPIO_PIN_COUNT) := by omega
  rw [hr]
  cases hout : soc.GPIO_IS_VALID_OUTPUT_GPIO gpio <;>
    split_ifs <;> simp_all

/-- The ESP32 pins 4 (accepted both ways) and 34 (input only), ESP32 target. -/
theorem output_accepted_implies_input_accepted_witness :
    (validate ⟨esp_chip_model_t.CHIP_ESP32⟩ esp32Soc 4 Mode.INPUT).1 = ESP_OK
    ∧ ((validate ⟨esp_chip_model_t.CHIP_ESP32⟩ esp32Soc 34 Mode.INPUT).1 = ESP_OK
      ∧ (validate ⟨esp_chip_model_t.CHIP_ESP32⟩ esp32Soc 34 Mode.OUTPUT).1 ≠ ESP_OK) :=
  ⟨(output_accepted_implies_input_accepted ⟨esp_chip_model_t.CHIP_ESP32⟩ esp32Soc 4).1
      (by decide),
    (output_accepted_implies_input_accepted ⟨esp_chip_model_t.CHIP_ESP32⟩ esp32Soc 34).2.2
      (by decide)⟩

/-- C16. For a chip model that is none of ESP32, ESP32-S3, ESP32-C3, every call
that returns `ESP_OK` logs exactly one notice, the warning that the chip model
is not explicitly handled, and every rejected call logs no such notice; for
the three models that `validate` names the notice is never logged, whatever the
pin and the mode. -/
theorem chip_not_handled_notice (chip_info : esp_chip_info_t) (soc : SocCaps)
    (gpio : Int) (mode : Mode) :
    (∀ model : Int, chip_info.model = esp_chip_model_t.other model →
      (validate chip_info soc gpio mode).1 = ESP_OK →
      (validate chip_info soc gpio mode).2 = [ESP_LOGW Msg.chip_not_handled model])
    ∧ ((validate chip_info soc gpio mode).1 = ESP_ERR_INVALID_ARG →
      ∀ e ∈ (validate chip_info soc gpio mode).2, e.msg ≠ Msg.chip_not_handled)
    ∧ (recognised chip_info.model = true →
      ∀ e ∈ (validate chip_info soc gpio mode).2, e.msg ≠ Msg.chip_not_handled) := by
  refine ⟨?_, ?_, ?_⟩
  · intro model hm hok
    rw [validate_accepted_log chip_info soc gpio mode hok, hm]
    simp [expectedCautions, cautionCategories]
  · intro herr e he
    obtain ⟨m, hm, hr⟩ := validate_rejected_log chip_info soc gpio mode herr
    rw [hm, List.mem_singleton] at he
    subst he
    intro hmsg
    simp only [ESP_LOGE] at hmsg
    rw [hmsg] at hr
    exact hr rfl
  · intro hrec e he
    rcases validate_status_cases chip_info soc gpio mode with hok | herr
    · rw [validate_accepted_log chip_info soc gpio mode hok, List.mem_append,
        List.mem_append] at he
      rcases he with (he | he) | he
      · intro hmsg
        have := expectedCautions_isCaution _ _ e he
        rw [hmsg] at this
        exact absurd this (by decide)
      · split_ifs at he
        · rw [List.mem_singleton] at he
          subst he
          simp [ESP_LOGW]
        · exact absurd he (List.not_mem_nil _)
      · obtain ⟨model⟩ := chip_info
        cases model <;> simp only [List.not_mem_nil, recognised] at he hrec
        exact absurd hrec (by decide)
    · obtain ⟨m, hm, hr⟩ := validate_rejected_log chip_info soc gpio mode herr
      rw [hm, List.mem_singleton] at he
      subst he
      intro hmsg
      simp only [ESP_LOGE] at hmsg
      rw [hmsg] at hr
      exact hr rfl

/-- The ESP32-S2 (chip model 2): an accepted and a rejected call; and an
accepted call on the ESP32. -/
theorem chip_not_handled_notice_witness :
    (validate ⟨esp_chip_model_t.other 2⟩ esp32s2Soc 4 Mode.OUTPUT).2
      = [ESP_LOGW Msg.chip_not_handled 2]
    ∧ (∀ e ∈ (validate ⟨esp_chip_model_t.other 2⟩ esp32s2Soc 46 Mode.OUTPUT).2,
        e.msg ≠ Msg.chip_not_handled)
    ∧ (∀ e ∈ (validate ⟨esp_chip_model_t.CHIP_ESP32⟩ esp32Soc 4 Mode.OUTPUT).2,
        e.msg ≠ Msg.chip_not_handled) :=
  ⟨(chip_not_handled_notice ⟨esp_chip_model_t.other 2⟩ esp32s2Soc 4 Mode.OUTPUT).1 2 rfl
      (by decide),
    (chip_not_handled_notice ⟨esp_chip_model_t.other 2⟩ esp32s2Soc 46 Mode.OUTPUT).2.1
      (by decide),
    (chip_not_handled_notice ⟨esp_chip_model_t.CHIP_ESP32⟩ esp32Soc 4 Mode.OUTPUT).2.2 rfl⟩

end GpioValidator
